import Mathlib

/-!
Shallow embedding of `call_function.py`: a linear web3 script that connects
to a JSON-RPC node, builds and signs a transaction calling
`saveNumber(12)` on a SimpleStorage contract, sends it, waits for the
receipt, and reads the stored value back with `getNumber()`.

The node is modelled as an oracle (`Node S`): a state machine answering the
script's RPC calls.  The script itself is the deterministic function
`runNode`, which records a trace of RPC calls and console prints together
with the final values of the script's variables.
-/

deriving instance DecidableEq for Except

/-- Errors a JSON-RPC call (or the web3 library) can raise. -/
inductive RpcError where
  | network
  | invalidCredentials
  | insufficientFunds
  | nonceMismatch
  | reverted
  | abiMismatch
  deriving DecidableEq, Repr

/-- Call data for a contract invocation: the function signature whose
4-byte keccak hash is the selector, together with the uint256 arguments,
as produced by web3's ABI encoder. -/
structure CallData where
  sig : String
  args : List Nat
  deriving DecidableEq, Repr

/-- The transaction dictionary produced by `buildTransaction`
(line 36 of the script). -/
structure Tx where
  chainId : Nat
  fromAddr : String
  nonce : Nat
  toAddr : String
  data : CallData
  deriving DecidableEq, Repr

/-- A signed transaction as produced by `sign_transaction` (line 39):
the raw bytes determine the original transaction, so we keep it. -/
structure SignedTx where
  rawTransaction : Tx
  key : String
  deriving DecidableEq, Repr

/-- The chain id decodable from a signed transaction's raw bytes. -/
def SignedTx.decodeChainId (s : SignedTx) : Nat :=
  s.rawTransaction.chainId

/-- A transaction receipt returned by `wait_for_transaction_receipt`:
`status` is 1 for a successful and 0 for a reverted mined transaction. -/
structure Receipt where
  status : Nat
  txHash : Nat
  deriving DecidableEq, Repr

/-- One entry of the contract ABI (line 25 of the script). -/
structure AbiFunction where
  name : String
  inputTypes : List String
  outputTypes : List String
  stateMutability : String
  deriving DecidableEq, Repr

/-- The ABI JSON string of line 25, parsed: three functions in the order
they appear in the source. -/
def abi : List AbiFunction :=
  [ { name := "deleteNumber", inputTypes := [], outputTypes := [],
      stateMutability := "nonpayable" },
    { name := "getNumber", inputTypes := [], outputTypes := ["uint256"],
      stateMutability := "view" },
    { name := "saveNumber", inputTypes := ["uint256"], outputTypes := [],
      stateMutability := "nonpayable" } ]

/-- `node_url` (line 4). -/
def node_url : String := "CHAINSTACK_NODE_URL"

/-- `caller` (line 18). -/
def caller : String := "YOUR_WALLET_ADDRESS"

/-- `private_key` (line 19). -/
def private_key : String := "YOUR_PRIVATE_KEY"

/-- `contract_address` (line 27). -/
def contract_address : String := "0x37b343ddb81d67A18476d01D6e74b25655fF4A0A"

/-- A contract instance, `web3.eth.contract(address=..., abi=...)` (line 30). -/
structure EthContract where
  address : String
  abiList : List AbiFunction
  deriving DecidableEq, Repr

/-- `contract` (line 30). -/
def contract : EthContract := { address := contract_address, abiList := abi }

/-- `contract.functions.<name>`: resolve a function by name in the ABI;
web3 raises if the name is absent. -/
def EthContract.lookupFunction (c : EthContract) (name : String) :
    Option AbiFunction :=
  c.abiList.find? (fun f => f.name == name)

/-- The canonical signature string of an ABI function, e.g.
`saveNumber(uint256)`, from which web3 derives the 4-byte selector. -/
def signatureOf (f : AbiFunction) : String :=
  f.name ++ "(" ++ String.intercalate "," f.inputTypes ++ ")"

/-- Observable events of one run: RPC calls issued and lines printed. -/
inductive Event where
  | calledIsConnected
  | printed (s : String)
  | calledGetTransactionCount (addr : String)
  | calledChainId
  | builtTransaction (tx : Tx)
  | signedTransaction (stx : SignedTx)
  | calledSendRawTransaction (stx : SignedTx)
  | calledWaitForReceipt (h : Nat)
  | calledEthCall (d : CallData)
  deriving DecidableEq, Repr

/-- The node oracle: a state machine over a state type `S` answering each
RPC method the script uses.  Fallible methods answer in `Except`. -/
structure Node (S : Type) where
  isConnected : S → Bool
  getTransactionCount : S → String → Except RpcError Nat × S
  chain_id : S → Except RpcError Nat × S
  send_raw_transaction : S → SignedTx → Except RpcError Nat × S
  wait_for_transaction_receipt : S → Nat → Except RpcError Receipt × S
  ethCall : S → CallData → Except RpcError Nat × S

/-- The `"-" * 50` separator printed around the connection banner. -/
def dashes : String := String.mk (List.replicate 50 '-')

/-- The prints of the connectivity check (lines 10-15): three lines when
connected, one line otherwise; execution continues either way. -/
def bannerEvents (connected : Bool) : List Event :=
  Event.calledIsConnected ::
    (if connected then
      [Event.printed dashes, Event.printed "Connection Successful",
       Event.printed dashes]
     else [Event.printed "Connection Failed"])

/-- The outcome of a run: the trace of events, the final value of each of
the script's variables (`none` when the script aborted before binding it),
and whether the script finished or died on an uncaught error. -/
structure RunResult where
  trace : List Event
  nonce : Option Nat := none
  Chain_id : Option Nat := none
  call_function : Option Tx := none
  signed_tx : Option SignedTx := none
  send_tx : Option Nat := none
  tx_receipt : Option Receipt := none
  number_saved : Option Nat := none
  outcome : Except RpcError Unit
  deriving DecidableEq, Repr

/-- The script (lines 10-54), one RPC at a time against the node oracle.
Any `Except.error` from the node aborts the run at that point, as an
uncaught Python exception would. -/
def runNode {S : Type} (node : Node S) (s0 : S) : RunResult × S :=
  let banner := bannerEvents (node.isConnected s0)
  match node.getTransactionCount s0 caller with
  | (Except.error e, s) =>
    ({ trace := banner ++ [Event.calledGetTransactionCount caller],
       outcome := Except.error e }, s)
  | (Except.ok nonceV, s1) =>
    match node.chain_id s1 with
    | (Except.error e, s) =>
      ({ trace := banner ++ [Event.calledGetTransactionCount caller,
           Event.calledChainId],
         nonce := some nonceV, outcome := Except.error e }, s)
    | (Except.ok cid, s2) =>
      match contract.lookupFunction "saveNumber" with
      | none =>
        ({ trace := banner ++ [Event.calledGetTransactionCount caller,
             Event.calledChainId],
           nonce := some nonceV, Chain_id := some cid,
           outcome := Except.error RpcError.abiMismatch }, s2)
      | some f =>
        let tx : Tx :=
          { chainId := cid, fromAddr := caller, nonce := nonceV,
            toAddr := contract.address,
            data := { sig := signatureOf f, args := [12] } }
        let stx : SignedTx := { rawTransaction := tx, key := private_key }
        match node.send_raw_transaction s2 stx with
        | (Except.error e, s) =>
          ({ trace := banner ++ [Event.calledGetTransactionCount caller,
               Event.calledChainId, Event.builtTransaction tx,
               Event.signedTransaction stx, Event.printed "Saving the number",
               Event.calledSendRawTransaction stx],
             nonce := some nonceV, Chain_id := some cid,
             call_function := some tx, signed_tx := some stx,
             outcome := Except.error e }, s)
        | (Except.ok txHash, s3) =>
          match node.wait_for_transaction_receipt s3 txHash with
          | (Except.error e, s) =>
            ({ trace := banner ++ [Event.calledGetTransactionCount caller,
                 Event.calledChainId, Event.builtTransaction tx,
                 Event.signedTransaction stx, Event.printed "Saving the number",
                 Event.calledSendRawTransaction stx,
                 Event.calledWaitForReceipt txHash],
               nonce := some nonceV, Chain_id := some cid,
               call_function := some tx, signed_tx := some stx,
               send_tx := some txHash, outcome := Except.error e }, s)
          | (Except.ok rec, s4) =>
            match contract.lookupFunction "getNumber" with
            | none =>
              ({ trace := banner ++ [Event.calledGetTransactionCount caller,
                   Event.calledChainId, Event.builtTransaction tx,
                   Event.signedTransaction stx, Event.printed "Saving the number",
                   Event.calledSendRawTransaction stx,
                   Event.calledWaitForReceipt txHash,
                   Event.printed "Transacion successful",
                   Event.printed "Retriving saved number..."],
                 nonce := some nonceV, Chain_id := some cid,
                 call_function := some tx, signed_tx := some stx,
                 send_tx := some txHash, tx_receipt := some rec,
                 outcome := Except.error RpcError.abiMismatch }, s4)
            | some g =>
              let gd : CallData := { sig := signatureOf g, args := [] }
              match node.ethCall s4 gd with
              | (Except.error e, s) =>
                ({ trace := banner ++ [Event.calledGetTransactionCount caller,
                     Event.calledChainId, Event.builtTransaction tx,
                     Event.signedTransaction stx,
                     Event.printed "Saving the number",
                     Event.calledSendRawTransaction stx,
                     Event.calledWaitForReceipt txHash,
                     Event.printed "Transacion successful",
                     Event.printed "Retriving saved number...",
                     Event.calledEthCall gd],
                   nonce := some nonceV, Chain_id := some cid,
                   call_function := some tx, signed_tx := some stx,
                   send_tx := some txHash, tx_receipt := some rec,
                   outcome := Except.error e }, s)
              | (Except.ok n, s5) =>
                ({ trace := banner ++ [Event.calledGetTransactionCount caller,
                     Event.calledChainId, Event.builtTransaction tx,
                     Event.signedTransaction stx,
                     Event.printed "Saving the number",
                     Event.calledSendRawTransaction stx,
                     Event.calledWaitForReceipt txHash,
                     Event.printed "Transacion successful",
                     Event.printed "Retriving saved number...",
                     Event.calledEthCall gd,
                     Event.printed ("The saved number is: " ++ toString n)],
                   nonce := some nonceV, Chain_id := some cid,
                   call_function := some tx, signed_tx := some stx,
                   send_tx := some txHash, tx_receipt := some rec,
                   number_saved := some n, outcome := Except.ok () }, s5)

/-- A stateless node determined by one fixed response per RPC method:
the mock-node setting of the spec's test scenarios. -/
structure Responses where
  isConnected : Bool
  txCount : Except RpcError Nat
  chainId : Except RpcError Nat
  sendResult : Except RpcError Nat
  receipt : Except RpcError Receipt
  callResult : Except RpcError Nat
  deriving DecidableEq, Repr

/-- View a fixed response table as a (stateless) node oracle. -/
def Responses.node (r : Responses) : Node Unit where
  isConnected := fun _ => r.isConnected
  getTransactionCount := fun s _ => (r.txCount, s)
  chain_id := fun s => (r.chainId, s)
  send_raw_transaction := fun s _ => (r.sendResult, s)
  wait_for_transaction_receipt := fun s _ => (r.receipt, s)
  ethCall := fun s _ => (r.callResult, s)

/-- Run the script against a fixed response table. -/
def runWith (r : Responses) : RunResult :=
  (runNode r.node ()).1

/-- The console output of a run, in order. -/
def printedLines (t : List Event) : List String :=
  t.filterMap fun e =>
    match e with
    | Event.printed s => some s
    | _ => none

/-- Whether a run invoked the contract function with the given signature,
either through a built transaction or through a read-only call. -/
def invoked (t : List Event) (sig : String) : Bool :=
  t.any fun e =>
    match e with
    | Event.builtTransaction tx => tx.data.sig == sig
    | Event.calledEthCall d => d.sig == sig
    | _ => false

/-- Modelled from the spec: the effect of a mined transaction on the
SimpleStorage contract deployed at `contract_address` (the contract's code
is not part of this repository).  `saveNumber(n)` stores `n`,
`deleteNumber()` clears the stored value, anything else leaves it. -/
def applyTx (tx : Tx) (stored : Nat) : Nat :=
  if tx.data.sig == "saveNumber(uint256)" then
    match tx.data.args with
    | [n] => n
    | _ => stored
  else if tx.data.sig == "deleteNumber()" then 0
  else stored

/-- Modelled from the spec: the observable state of a well-behaved node
serving the SimpleStorage contract (node behaviour is not part of this
repository): the caller's transaction count, the chain id, the value
currently stored in the contract, and the not-yet-mined transaction. -/
structure Chain where
  accountNonce : Nat
  chainId : Nat
  stored : Nat
  pending : Option Tx
  deriving DecidableEq, Repr

/-- Modelled from the spec: a faithful node.  A submitted transaction is
pending until `wait_for_transaction_receipt`, which mines it (applying its
effect to the contract storage) and returns a receipt; a read-only call to
`getNumber()` returns the stored value. -/
def faithfulNode : Node Chain where
  isConnected := fun _ => true
  getTransactionCount := fun c _ => (Except.ok c.accountNonce, c)
  chain_id := fun c => (Except.ok c.chainId, c)
  send_raw_transaction := fun c stx =>
    (Except.ok 1, { c with pending := some stx.rawTransaction })
  wait_for_transaction_receipt := fun c h =>
    match c.pending with
    | some tx =>
      (Except.ok { status := 1, txHash := h },
       { c with stored := applyTx tx c.stored, pending := none })
    | none => (Except.error RpcError.network, c)
  ethCall := fun c d =>
    if d.sig == "getNumber()" then (Except.ok c.stored, c)
    else (Except.error RpcError.reverted, c)

/-- Mock response table of the spec scenario: nonce 5, chain id 5, every
RPC call succeeding. -/
def resp5 : Responses :=
  { isConnected := true, txCount := Except.ok 5, chainId := Except.ok 5,
    sendResult := Except.ok 1,
    receipt := Except.ok { status := 1, txHash := 1 },
    callResult := Except.ok 12 }

/-- Whether an event is the read-only contract call. -/
def isEthCallEvent : Event → Bool
  | Event.calledEthCall _ => true
  | _ => false

/-- Whether an event is the receipt wait. -/
def isWaitEvent : Event → Bool
  | Event.calledWaitForReceipt _ => true
  | _ => false

/-- A trace issues the read-only call only after the receipt wait:
either no read-only call happens, or the part of the trace before the
first read-only call already contains the receipt wait. -/
def getterAfterReceipt (t : List Event) : Bool :=
  !(t.any isEthCallEvent) ||
    (t.takeWhile (fun e => !(isEthCallEvent e))).any isWaitEvent

/-- Mock response table whose `send_raw_transaction` raises. -/
def respSendErr : Responses :=
  { isConnected := true, txCount := Except.ok 5, chainId := Except.ok 5,
    sendResult := Except.error RpcError.insufficientFunds,
    receipt := Except.ok { status := 1, txHash := 1 },
    callResult := Except.ok 12 }

/-- Mock response table whose `getTransactionCount` raises. -/
def respTcErr : Responses :=
  { isConnected := true, txCount := Except.error RpcError.network,
    chainId := Except.ok 5, sendResult := Except.ok 1,
    receipt := Except.ok { status := 1, txHash := 1 },
    callResult := Except.ok 12 }

/-- Resolving `saveNumber` in the ABI of line 25 yields its entry. -/
theorem lookup_saveNumber :
    contract.lookupFunction "saveNumber" =
      some { name := "saveNumber", inputTypes := ["uint256"], outputTypes := [],
             stateMutability := "nonpayable" } := rfl

/-- Resolving `getNumber` in the ABI of line 25 yields its entry. -/
theorem lookup_getNumber :
    contract.lookupFunction "getNumber" =
      some { name := "getNumber", inputTypes := [], outputTypes := ["uint256"],
             stateMutability := "view" } := rfl

/-- The signature string of the `saveNumber` ABI entry. -/
theorem sig_saveNumber :
    signatureOf { name := "saveNumber", inputTypes := ["uint256"],
                  outputTypes := [], stateMutability := "nonpayable" } =
      "saveNumber(uint256)" := rfl

/-- The signature string of the `getNumber` ABI entry. -/
theorem sig_getNumber :
    signatureOf { name := "getNumber", inputTypes := [],
                  outputTypes := ["uint256"], stateMutability := "view" } =
      "getNumber()" := rfl

/-- C1: for every nonce N returned by `getTransactionCount` and chain id C
returned by `chain_id`, the transaction built at line 36 has nonce N,
chainId C, and call data encoding the selector of `saveNumber(uint256)`
applied to 12. -/
theorem C1_built_transaction (r : Responses) (N C : Nat)
    (hN : r.txCount = Except.ok N) (hC : r.chainId = Except.ok C) :
    (runWith r).call_function =
      some { chainId := C, fromAddr := caller, nonce := N,
             toAddr := contract_address,
             data := { sig := "saveNumber(uint256)", args := [12] } } := by
  obtain ⟨conn, tc, cid, sr, rc, cr⟩ := r
  simp only at hN hC
  subst hN hC
  cases sr <;> cases rc <;> cases cr <;> rfl

/-- C1 witness: the spec scenario with nonce 5 and chain id 5. -/
theorem C1_built_transaction_witness :
    (runWith resp5).call_function =
      some { chainId := 5, fromAddr := caller, nonce := 5,
             toAddr := contract_address,
             data := { sig := "saveNumber(uint256)", args := [12] } } :=
  C1_built_transaction resp5 5 5 rfl rfl

/-- C2: the chain id decodable from the signed transaction of line 39
equals the value the node returned for `chain_id` at line 33. -/
theorem C2_signed_chain_id (r : Responses) (C : Nat)
    (hC : r.chainId = Except.ok C) (stx : SignedTx)
    (hs : (runWith r).signed_tx = some stx) :
    stx.decodeChainId = C := by
  obtain ⟨conn, tc, cid, sr, rc, cr⟩ := r
  simp only at hC
  subst hC
  cases tc <;> cases sr <;> cases rc <;> cases cr <;>
    simp [runWith, runNode, Responses.node, lookup_saveNumber,
      lookup_getNumber] at hs <;>
    simp [← hs, SignedTx.decodeChainId]

/-- C2 witness: in the spec scenario the signed transaction decodes to
chain id 5. -/
theorem C2_signed_chain_id_witness :
    SignedTx.decodeChainId
      { rawTransaction :=
          { chainId := 5, fromAddr := caller, nonce := 5,
            toAddr := contract_address,
            data := { sig := "saveNumber(uint256)", args := [12] } },
        key := private_key } = 5 :=
  C2_signed_chain_id resp5 5 rfl _ rfl

/-- C3: when `send_raw_transaction` raises, the run aborts there: the
trace ends at the send call, neither the success message nor anything
like it is printed, and neither the receipt wait nor the getter call is
reached. -/
theorem C3_send_error_halts (r : Responses) (N C : Nat) (e : RpcError)
    (hN : r.txCount = Except.ok N) (hC : r.chainId = Except.ok C)
    (hS : r.sendResult = Except.error e) :
    (runWith r).outcome = Except.error e ∧
    (runWith r).trace = bannerEvents r.isConnected ++
      [Event.calledGetTransactionCount caller, Event.calledChainId,
       Event.builtTransaction
         { chainId := C, fromAddr := caller, nonce := N,
           toAddr := contract_address,
           data := { sig := "saveNumber(uint256)", args := [12] } },
       Event.signedTransaction
         { rawTransaction :=
             { chainId := C, fromAddr := caller, nonce := N,
               toAddr := contract_address,
               data := { sig := "saveNumber(uint256)", args := [12] } },
           key := private_key },
       Event.printed "Saving the number",
       Event.calledSendRawTransaction
         { rawTransaction :=
             { chainId := C, fromAddr := caller, nonce := N,
               toAddr := contract_address,
               data := { sig := "saveNumber(uint256)", args := [12] } },
           key := private_key }] ∧
    Event.printed "Transaction successful." ∉ (runWith r).trace ∧
    Event.printed "Transacion successful" ∉ (runWith r).trace ∧
    (runWith r).tx_receipt = none ∧
    (runWith r).number_saved = none := by
  obtain ⟨conn, tc, cid, sr, rc, cr⟩ := r
  simp only at hN hC hS
  subst hN hC hS
  cases conn <;>
    refine ⟨rfl, rfl, ?_, ?_, rfl, rfl⟩ <;>
    simp [runWith, runNode, Responses.node, lookup_saveNumber,
      lookup_getNumber, signatureOf, bannerEvents, dashes]

/-- C3 witness: a mock node whose send step raises. -/
theorem C3_send_error_halts_witness :
    (runWith respSendErr).outcome =
      Except.error RpcError.insufficientFunds ∧
    (runWith respSendErr).trace = bannerEvents respSendErr.isConnected ++
      [Event.calledGetTransactionCount caller, Event.calledChainId,
       Event.builtTransaction
         { chainId := 5, fromAddr := caller, nonce := 5,
           toAddr := contract_address,
           data := { sig := "saveNumber(uint256)", args := [12] } },
       Event.signedTransaction
         { rawTransaction :=
             { chainId := 5, fromAddr := caller, nonce := 5,
               toAddr := contract_address,
               data := { sig := "saveNumber(uint256)", args := [12] } },
           key := private_key },
       Event.printed "Saving the number",
       Event.calledSendRawTransaction
         { rawTransaction :=
             { chainId := 5, fromAddr := caller, nonce := 5,
               toAddr := contract_address,
               data := { sig := "saveNumber(uint256)", args := [12] } },
           key := private_key }] ∧
    Event.printed "Transaction successful." ∉ (runWith respSendErr).trace ∧
    Event.printed "Transacion successful" ∉ (runWith respSendErr).trace ∧
    (runWith respSendErr).tx_receipt = none ∧
    (runWith respSendErr).number_saved = none :=
  C3_send_error_halts respSendErr 5 5 RpcError.insufficientFunds rfl rfl rfl

/-- C4: in every run that builds a transaction, `getTransactionCount` was
called strictly earlier (the build event lies in the trace after the
nonce fetch) and the built nonce is exactly the fetched count. -/
theorem C4_nonce_before_build (r : Responses) (tx : Tx)
    (h : Event.builtTransaction tx ∈ (runWith r).trace) :
    r.txCount = Except.ok tx.nonce ∧
    ∃ l2, (runWith r).trace = bannerEvents r.isConnected ++
        Event.calledGetTransactionCount caller :: l2 ∧
      Event.builtTransaction tx ∈ l2 := by
  obtain ⟨conn, tc, cid, sr, rc, cr⟩ := r
  cases conn <;> cases tc <;> cases cid <;> cases sr <;> cases rc <;>
    cases cr <;>
    simp [runWith, runNode, Responses.node, lookup_saveNumber,
      lookup_getNumber, bannerEvents, dashes] at h <;>
    subst h <;>
    exact ⟨rfl, _, rfl, by simp⟩

/-- C4 witness: the spec scenario builds its transaction after the nonce
fetch. -/
theorem C4_nonce_before_build_witness :
    resp5.txCount = Except.ok 5 ∧
    ∃ l2, (runWith resp5).trace = bannerEvents resp5.isConnected ++
        Event.calledGetTransactionCount caller :: l2 ∧
      Event.builtTransaction
        { chainId := 5, fromAddr := caller, nonce := 5,
          toAddr := contract_address,
          data := { sig := "saveNumber(uint256)", args := [12] } } ∈ l2 :=
  C4_nonce_before_build resp5
    { chainId := 5, fromAddr := caller, nonce := 5,
      toAddr := contract_address,
      data := { sig := "saveNumber(uint256)", args := [12] } }
    (by decide)


/-- C5: in every run the `getNumber()` call is issued only after
`wait_for_transaction_receipt`; whenever the call is issued the wait has
returned a receipt (the node's response, bound to `tx_receipt`); and
against a faithful node, whatever value the contract held before, the
script reads back and prints the newly saved 12. -/
theorem C5_getter_after_receipt :
    (∀ r : Responses, getterAfterReceipt (runWith r).trace = true) ∧
    (∀ (r : Responses) (d : CallData),
      Event.calledEthCall d ∈ (runWith r).trace →
      ∃ rec, (runWith r).tx_receipt = some rec ∧
        r.receipt = Except.ok rec) ∧
    (∀ c : Chain,
      (runNode faithfulNode c).1.number_saved = some 12 ∧
      Event.printed "The saved number is: 12" ∈
        (runNode faithfulNode c).1.trace ∧
      (runNode faithfulNode c).1.outcome = Except.ok ()) := by
  refine ⟨?_, ?_, ?_⟩
  · intro r
    obtain ⟨conn, tc, cid, sr, rc, cr⟩ := r
    cases conn <;> cases tc <;> cases cid <;> cases sr <;> cases rc <;>
      cases cr <;> rfl
  · intro r d h
    obtain ⟨conn, tc, cid, sr, rc, cr⟩ := r
    cases conn <;> cases tc <;> cases cid <;> cases sr <;> cases rc <;>
      cases cr <;>
      simp [runWith, runNode, Responses.node, lookup_saveNumber,
        lookup_getNumber, bannerEvents, dashes] at h <;>
      exact ⟨_, rfl, rfl⟩
  · intro c
    refine ⟨rfl, ?_, rfl⟩
    simp [runNode, faithfulNode, bannerEvents, lookup_saveNumber,
      lookup_getNumber, sig_saveNumber, sig_getNumber, applyTx,
      show ("The saved number is: " ++ toString 12) =
        "The saved number is: 12" from rfl]

/-- C5 witness: the spec scenario, and a faithful node whose contract
initially stores 7. -/
theorem C5_getter_after_receipt_witness :
    getterAfterReceipt (runWith resp5).trace = true ∧
    (∃ rec, (runWith resp5).tx_receipt = some rec ∧
      resp5.receipt = Except.ok rec) ∧
    (runNode faithfulNode (Chain.mk 0 5 7 none)).1.number_saved = some 12 :=
  ⟨C5_getter_after_receipt.1 resp5,
   C5_getter_after_receipt.2.1 resp5
     (CallData.mk "getNumber()" []) (by decide),
   (C5_getter_after_receipt.2.2 (Chain.mk 0 5 7 none)).1⟩

/-- C6: the connectivity check only selects the banner: with the same
later responses, the run with `isConnected = false` produces the same
trace after the banner, the same outcome, and the same variable bindings
as the run with `isConnected = true`. -/
theorem C6_connectivity_only_banner (r : Responses) :
    ∃ rest : List Event,
      (runWith { r with isConnected := true }).trace =
        bannerEvents true ++ rest ∧
      (runWith { r with isConnected := false }).trace =
        bannerEvents false ++ rest ∧
      (runWith { r with isConnected := true }).outcome =
        (runWith { r with isConnected := false }).outcome ∧
      (runWith { r with isConnected := true }).nonce =
        (runWith { r with isConnected := false }).nonce ∧
      (runWith { r with isConnected := true }).Chain_id =
        (runWith { r with isConnected := false }).Chain_id ∧
      (runWith { r with isConnected := true }).call_function =
        (runWith { r with isConnected := false }).call_function ∧
      (runWith { r with isConnected := true }).signed_tx =
        (runWith { r with isConnected := false }).signed_tx ∧
      (runWith { r with isConnected := true }).send_tx =
        (runWith { r with isConnected := false }).send_tx ∧
      (runWith { r with isConnected := true }).tx_receipt =
        (runWith { r with isConnected := false }).tx_receipt ∧
      (runWith { r with isConnected := true }).number_saved =
        (runWith { r with isConnected := false }).number_saved := by
  obtain ⟨conn, tc, cid, sr, rc, cr⟩ := r
  cases tc <;> cases cid <;> cases sr <;> cases rc <;> cases cr <;>
    exact ⟨_, rfl, rfl, rfl, rfl, rfl, rfl, rfl, rfl, rfl, rfl⟩

/-- C7: every RPC failure propagates uncaught: whichever step returns an
error first, the run's outcome is exactly that error and the later steps
never execute (their variables stay unbound). -/
theorem C7_errors_propagate (r : Responses) (e : RpcError) :
    (r.txCount = Except.error e →
      (runWith r).outcome = Except.error e ∧
      (runWith r).nonce = none ∧ (runWith r).call_function = none) ∧
    (∀ N, r.txCount = Except.ok N → r.chainId = Except.error e →
      (runWith r).outcome = Except.error e ∧
      (runWith r).call_function = none) ∧
    (∀ N C, r.txCount = Except.ok N → r.chainId = Except.ok C →
      r.sendResult = Except.error e →
      (runWith r).outcome = Except.error e ∧
      (runWith r).send_tx = none ∧ (runWith r).tx_receipt = none) ∧
    (∀ N C H, r.txCount = Except.ok N → r.chainId = Except.ok C →
      r.sendResult = Except.ok H → r.receipt = Except.error e →
      (runWith r).outcome = Except.error e ∧
      (runWith r).tx_receipt = none ∧
      (runWith r).number_saved = none) ∧
    (∀ N C H rec, r.txCount = Except.ok N → r.chainId = Except.ok C →
      r.sendResult = Except.ok H → r.receipt = Except.ok rec →
      r.callResult = Except.error e →
      (runWith r).outcome = Except.error e ∧
      (runWith r).number_saved = none) := by
  obtain ⟨conn, tc, cid, sr, rc, cr⟩ := r
  refine ⟨?_, ?_, ?_, ?_, ?_⟩
  · intro h; simp only at h; subst h; exact ⟨rfl, rfl, rfl⟩
  · intro N h1 h2; simp only at h1 h2; subst h1 h2; exact ⟨rfl, rfl⟩
  · intro N C h1 h2 h3; simp only at h1 h2 h3; subst h1 h2 h3
    exact ⟨rfl, rfl, rfl⟩
  · intro N C H h1 h2 h3 h4; simp only at h1 h2 h3 h4
    subst h1 h2 h3 h4; exact ⟨rfl, rfl, rfl⟩
  · intro N C H rec h1 h2 h3 h4 h5; simp only at h1 h2 h3 h4 h5
    subst h1 h2 h3 h4 h5; exact ⟨rfl, rfl⟩

/-- C7 witness: a send-step failure aborts the run with that error. -/
theorem C7_errors_propagate_witness :
    (runWith respSendErr).outcome =
      Except.error RpcError.insufficientFunds ∧
    (runWith respSendErr).send_tx = none ∧
    (runWith respSendErr).tx_receipt = none :=
  (C7_errors_propagate respSendErr RpcError.insufficientFunds).2.2.1
    5 5 rfl rfl rfl

/-- C8 counterexample: the claim says saveNumber and getNumber are
invoked in every run, but in a run whose `getTransactionCount` raises,
neither function is invoked. -/
theorem C8_not_every_run_invokes_two :
    invoked (runWith respTcErr).trace "getNumber()" = false ∧
    invoked (runWith respTcErr).trace "saveNumber(uint256)" = false := by
  decide

/-- C8 (amended): of the three ABI functions, `deleteNumber` is never
invoked in any run; no signature other than `saveNumber(uint256)` and
`getNumber()` is ever invoked; and in every run that completes
successfully both of those are invoked. -/
theorem C8_two_of_three_invoked (r : Responses) :
    abi.length = 3 ∧
    invoked (runWith r).trace "deleteNumber()" = false ∧
    (∀ s : String, invoked (runWith r).trace s = true →
      s = "saveNumber(uint256)" ∨ s = "getNumber()") ∧
    ((runWith r).outcome = Except.ok () →
      invoked (runWith r).trace "saveNumber(uint256)" = true ∧
      invoked (runWith r).trace "getNumber()" = true) := by
  obtain ⟨conn, tc, cid, sr, rc, cr⟩ := r
  cases conn <;> cases tc <;> cases cid <;> cases sr <;> cases rc <;>
    cases cr <;>
    refine ⟨rfl, rfl, fun s hs => ?_, fun hok => ?_⟩ <;>
    first
    | ((simp [invoked, runWith, runNode, Responses.node, lookup_saveNumber,
          lookup_getNumber, sig_saveNumber, sig_getNumber, bannerEvents,
          dashes] at hs) <;>
        (rcases hs with rfl | rfl <;> simp))
    | exact ⟨rfl, rfl⟩
    | (simp [runWith, runNode, Responses.node, lookup_saveNumber,
        lookup_getNumber, bannerEvents, dashes] at hok)

/-- C8 witness for the amended claim: the fully successful spec scenario
invokes both functions. -/
theorem C8_two_of_three_invoked_witness :
    invoked (runWith resp5).trace "saveNumber(uint256)" = true ∧
    invoked (runWith resp5).trace "getNumber()" = true :=
  (C8_two_of_three_invoked resp5).2.2.2 rfl

/-- C9: once `wait_for_transaction_receipt` returns a receipt, the script
prints "Transacion successful" and issues the `getNumber()` call without
inspecting the receipt's status: replacing the receipt by one with
status 0 (a reverted transaction) changes neither the trace, the outcome,
nor the value read back. -/
theorem C9_receipt_status_ignored (r : Responses) (N C H : Nat)
    (rec : Receipt)
    (hN : r.txCount = Except.ok N) (hC : r.chainId = Except.ok C)
    (hS : r.sendResult = Except.ok H) :
    Event.printed "Transacion successful" ∈
      (runWith { r with receipt := Except.ok rec }).trace ∧
    Event.calledEthCall { sig := "getNumber()", args := [] } ∈
      (runWith { r with receipt := Except.ok rec }).trace ∧
    (runWith { r with receipt := Except.ok rec }).trace =
      (runWith { r with
        receipt := Except.ok { status := 0, txHash := rec.txHash } }).trace ∧
    (runWith { r with receipt := Except.ok rec }).outcome =
      (runWith { r with
        receipt := Except.ok { status := 0, txHash := rec.txHash } }).outcome ∧
    (runWith { r with receipt := Except.ok rec }).number_saved =
      (runWith { r with
        receipt :=
          Except.ok { status := 0, txHash := rec.txHash } }).number_saved := by
  obtain ⟨conn, tc, cid, sr, rc, cr⟩ := r
  simp only at hN hC hS
  subst hN hC hS
  cases conn <;> cases cr <;>
    refine ⟨?_, ?_, rfl, rfl, rfl⟩ <;>
    simp [runWith, runNode, Responses.node, lookup_saveNumber,
      lookup_getNumber, sig_getNumber, bannerEvents, dashes]

/-- C9 witness: the spec scenario with a status-1 receipt. -/
theorem C9_receipt_status_ignored_witness :
    Event.printed "Transacion successful" ∈
      (runWith { resp5 with
        receipt := Except.ok { status := 1, txHash := 1 } }).trace ∧
    Event.calledEthCall { sig := "getNumber()", args := [] } ∈
      (runWith { resp5 with
        receipt := Except.ok { status := 1, txHash := 1 } }).trace ∧
    (runWith { resp5 with
        receipt := Except.ok { status := 1, txHash := 1 } }).trace =
      (runWith { resp5 with
        receipt := Except.ok { status := 0, txHash := 1 } }).trace ∧
    (runWith { resp5 with
        receipt := Except.ok { status := 1, txHash := 1 } }).outcome =
      (runWith { resp5 with
        receipt := Except.ok { status := 0, txHash := 1 } }).outcome ∧
    (runWith { resp5 with
        receipt := Except.ok { status := 1, txHash := 1 } }).number_saved =
      (runWith { resp5 with
        receipt := Except.ok { status := 0, txHash := 1 } }).number_saved :=
  C9_receipt_status_ignored resp5 5 5 1 { status := 1, txHash := 1 }
    rfl rfl rfl

/-- C10: the run is a function of the node's responses alone: two runs
whose nodes answer every RPC method identically print the same console
output, sign and submit the same transaction, and coincide entirely. -/
theorem C10_node_determines_run (r1 r2 : Responses)
    (h1 : r1.isConnected = r2.isConnected)
    (h2 : r1.txCount = r2.txCount)
    (h3 : r1.chainId = r2.chainId)
    (h4 : r1.sendResult = r2.sendResult)
    (h5 : r1.receipt = r2.receipt)
    (h6 : r1.callResult = r2.callResult) :
    printedLines (runWith r1).trace = printedLines (runWith r2).trace ∧
    (runWith r1).signed_tx = (runWith r2).signed_tx ∧
    runWith r1 = runWith r2 := by
  obtain ⟨c1, t1, i1, d1, w1, e1⟩ := r1
  obtain ⟨c2, t2, i2, d2, w2, e2⟩ := r2
  simp only at h1 h2 h3 h4 h5 h6
  subst h1 h2 h3 h4 h5 h6
  exact ⟨rfl, rfl, rfl⟩

/-- C10 witness: instantiated at the spec scenario. -/
theorem C10_node_determines_run_witness :
    printedLines (runWith resp5).trace = printedLines (runWith resp5).trace ∧
    (runWith resp5).signed_tx = (runWith resp5).signed_tx ∧
    runWith resp5 = runWith resp5 :=
  C10_node_determines_run resp5 resp5 rfl rfl rfl rfl rfl rfl
